import Mathlib

/-!
Verification of the Smart Assembly Pro application.

Shallow embedding of the repository's code:
* `Json`, `Json.parse`, `Json.stringify` model the platform's JSON values and
  the built-in `JSON.parse` / `JSON.stringify` used throughout the code
  (numbers are modelled as integers; no claim depends on fractional numbers).
* `Api` models the serverless generation-proxy handler (api/gemini.ts).
* `Services` models the browser-side generation client (src/services/gemini.ts).
* `App` models the UI shell's pure state logic (state initializers,
  `updateGreeting`, `handleGenerateSection`) from src/services/gemini.ts
  (the bundled App component).
-/

set_option linter.unusedVariables false
set_option maxRecDepth 100000

namespace SmartAssembly

/-- JSON values as produced by `JSON.parse`. -/
inductive Json where
  | null : Json
  | bool : Bool → Json
  | num : Int → Json
  | str : String → Json
  | arr : List Json → Json
  | obj : List (String × Json) → Json

/-- The `\x7b` character (opening curly brace). -/
def lbrace : Char := Char.ofNat 123

/-- The `\x7d` character (closing curly brace). -/
def rbrace : Char := Char.ofNat 125

/-- Skip JSON whitespace. -/
def skipWs : List Char → List Char
  | [] => []
  | c :: cs => if c = ' ' ∨ c = '\t' ∨ c = '\n' ∨ c = '\r' then skipWs cs else c :: cs

/-- Hexadecimal digit value. -/
def hexVal (c : Char) : Option Nat :=
  if '0' ≤ c ∧ c ≤ '9' then some (c.toNat - 48)
  else if 'a' ≤ c ∧ c ≤ 'f' then some (c.toNat - 87)
  else if 'A' ≤ c ∧ c ≤ 'F' then some (c.toNat - 55)
  else none

/-- Parse the body of a JSON string literal (after the opening quote),
accumulating characters until the closing quote. -/
def parseStringBody : List Char → List Char → Except String (String × List Char)
  | [], _ => .error "Unterminated string in JSON"
  | '"' :: rest, acc => .ok (String.mk acc.reverse, rest)
  | '\\' :: rest, acc =>
    match rest with
    | '"' :: rest' => parseStringBody rest' ('"' :: acc)
    | '\\' :: rest' => parseStringBody rest' ('\\' :: acc)
    | '/' :: rest' => parseStringBody rest' ('/' :: acc)
    | 'n' :: rest' => parseStringBody rest' ('\n' :: acc)
    | 't' :: rest' => parseStringBody rest' ('\t' :: acc)
    | 'r' :: rest' => parseStringBody rest' ('\r' :: acc)
    | 'b' :: rest' => parseStringBody rest' (Char.ofNat 8 :: acc)
    | 'f' :: rest' => parseStringBody rest' (Char.ofNat 12 :: acc)
    | 'u' :: h1 :: h2 :: h3 :: h4 :: rest' =>
      match hexVal h1, hexVal h2, hexVal h3, hexVal h4 with
      | some a, some b, some c, some d =>
        parseStringBody rest' (Char.ofNat (a * 4096 + b * 256 + c * 16 + d) :: acc)
      | _, _, _, _ => .error "Bad Unicode escape in JSON"
    | _ => .error "Bad escaped character in JSON"
  | c :: rest, acc => parseStringBody rest (c :: acc)

/-- Consume leading decimal digits, accumulating their value. -/
def parseDigits : Nat → List Char → Nat × List Char
  | acc, [] => (acc, [])
  | acc, c :: cs =>
    if c.isDigit then parseDigits (acc * 10 + (c.toNat - 48)) cs else (acc, c :: cs)

mutual

/-- Fueled recursive-descent parser for a JSON value. -/
def parseVal : Nat → List Char → Except String (Json × List Char)
  | 0, _ => .error "Unexpected end of JSON input"
  | fuel + 1, cs =>
    match skipWs cs with
    | [] => .error "Unexpected end of JSON input"
    | 'n' :: 'u' :: 'l' :: 'l' :: rest => .ok (Json.null, rest)
    | 't' :: 'r' :: 'u' :: 'e' :: rest => .ok (Json.bool true, rest)
    | 'f' :: 'a' :: 'l' :: 's' :: 'e' :: rest => .ok (Json.bool false, rest)
    | '"' :: rest =>
      match parseStringBody rest [] with
      | .error e => .error e
      | .ok (s, rest') => .ok (Json.str s, rest')
    | '[' :: rest =>
      match skipWs rest with
      | ']' :: rest' => .ok (Json.arr [], rest')
      | rest' =>
        match parseElems fuel rest' with
        | .error e => .error e
        | .ok (xs, rest'') => .ok (Json.arr xs, rest'')
    | '-' :: rest =>
      match rest with
      | c :: _ =>
        if c.isDigit then
          let (n, rest') := parseDigits 0 rest
          .ok (Json.num (-(Int.ofNat n)), rest')
        else .error "Unexpected token - in JSON"
      | [] => .error "Unexpected end of JSON input"
    | c :: rest =>
      if c = lbrace then
        match skipWs rest with
        | d :: rest' =>
          if d = rbrace then .ok (Json.obj [], rest')
          else
            match parseFields fuel (d :: rest') with
            | .error e => .error e
            | .ok (fs, rest'') => .ok (Json.obj fs, rest'')
        | [] => .error "Unexpected end of JSON input"
      else if c.isDigit then
        let (n, rest') := parseDigits (c.toNat - 48) rest
        .ok (Json.num (Int.ofNat n), rest')
      else .error ("Unexpected token " ++ String.mk [c] ++ " in JSON")

/-- Parse the comma-separated elements of a JSON array (at least one). -/
def parseElems : Nat → List Char → Except String (List Json × List Char)
  | 0, _ => .error "Unexpected end of JSON input"
  | fuel + 1, cs =>
    match parseVal fuel cs with
    | .error e => .error e
    | .ok (v, rest) =>
      match skipWs rest with
      | ',' :: rest' =>
        match parseElems fuel rest' with
        | .error e => .error e
        | .ok (vs, rest'') => .ok (v :: vs, rest'')
      | ']' :: rest' => .ok ([v], rest')
      | _ => .error "Expected , or ] after array element in JSON"

/-- Parse the comma-separated members of a JSON object (at least one). -/
def parseFields : Nat → List Char → Except String (List (String × Json) × List Char)
  | 0, _ => .error "Unexpected end of JSON input"
  | fuel + 1, cs =>
    match skipWs cs with
    | '"' :: rest =>
      match parseStringBody rest [] with
      | .error e => .error e
      | .ok (k, rest') =>
        match skipWs rest' with
        | ':' :: rest'' =>
          match parseVal fuel rest'' with
          | .error e => .error e
          | .ok (v, rest3) =>
            match skipWs rest3 with
            | ',' :: rest4 =>
              match parseFields fuel rest4 with
              | .error e => .error e
              | .ok (fs, rest5) => .ok ((k, v) :: fs, rest5)
            | d :: rest4 =>
              if d = rbrace then .ok ([(k, v)], rest4)
              else .error "Expected , or end of object in JSON"
            | [] => .error "Unexpected end of JSON input"
        | _ => .error "Expected : after property name in JSON"
    | _ => .error "Expected property name in JSON"

end

/-- Model of the platform's `JSON.parse`: parse a complete JSON document,
raising (as `Except.error`) a syntax-error message on malformed input. -/
def Json.parse (s : String) : Except String Json :=
  match parseVal (s.length + 1) s.data with
  | .error e => .error e
  | .ok (v, rest) =>
    match skipWs rest with
    | [] => .ok v
    | _ => .error "Unexpected non-whitespace character after JSON"

/-- Hexadecimal digit character for a value below 16. -/
def hexDigit (n : Nat) : Char :=
  if n < 10 then Char.ofNat (48 + n) else Char.ofNat (87 + n)

/-- Escape one character of a JSON string literal, as `JSON.stringify` does. -/
def escapeChar (c : Char) : String :=
  if c = '"' then "\\\""
  else if c = '\\' then "\\\\"
  else if c = '\n' then "\\n"
  else if c = '\t' then "\\t"
  else if c = '\r' then "\\r"
  else if c.toNat = 8 then "\\b"
  else if c.toNat = 12 then "\\f"
  else if c.toNat < 32 then
    String.mk ['\\', 'u', '0', '0', hexDigit (c.toNat / 16), hexDigit (c.toNat % 16)]
  else String.mk [c]

/-- Escape the body of a JSON string literal. -/
def escapeString (s : String) : String :=
  String.join (s.data.map escapeChar)

mutual

/-- Model of the platform's `JSON.stringify` (on defined values). -/
def Json.stringify : Json → String
  | Json.null => "null"
  | Json.bool true => "true"
  | Json.bool false => "false"
  | Json.num n => toString n
  | Json.str s => "\"" ++ escapeString s ++ "\""
  | Json.arr xs => "[" ++ stringifyElems xs ++ "]"
  | Json.obj fs => String.mk [lbrace] ++ stringifyFields fs ++ String.mk [rbrace]

/-- Serialize array elements, comma separated. -/
def stringifyElems : List Json → String
  | [] => ""
  | [x] => Json.stringify x
  | x :: xs => Json.stringify x ++ "," ++ stringifyElems xs

/-- Serialize object members, comma separated. -/
def stringifyFields : List (String × Json) → String
  | [] => ""
  | [(k, v)] => "\"" ++ escapeString k ++ "\":" ++ Json.stringify v
  | (k, v) :: fs => "\"" ++ escapeString k ++ "\":" ++ Json.stringify v ++ "," ++ stringifyFields fs

end

/-- JavaScript truthiness of a defined JSON value (null, false, 0 and the
empty string are falsy; every array and object is truthy). -/
def jsTruthy : Json → Bool
  | .null => false
  | .bool b => b
  | .num n => n != 0
  | .str s => s != ""
  | .arr _ => true
  | .obj _ => true

namespace Api

/-- A declared provider output schema (the `responseSchema` values of api/gemini.ts). -/
inductive Schema where
  | string : Option (List String) → Schema
  | object : List (String × Schema) → List String → Schema
  | array : Schema → Schema

/-- Output schema for the word-of-the-day section. -/
def WORD_SCHEMA : Schema :=
  .object
    [("word", .string none), ("meaning", .string none), ("antonym", .string none),
     ("synonym", .string none), ("example", .string none), ("pronunciation", .string none)]
    ["word", "meaning", "antonym", "synonym", "example"]

/-- Output schema for the thought-of-the-day section. -/
def THOUGHT_SCHEMA : Schema :=
  .object [("quote", .string none), ("author", .string none), ("bio", .string none)]
    ["quote", "author"]

/-- Output schema for the news section. -/
def NEWS_SCHEMA : Schema :=
  .array (.object
    [("title", .string none), ("summary", .string none),
     ("category", .string (some ["International", "National", "Sports"]))]
    ["title", "summary", "category"])

/-- Output schema for the special-item section. -/
def SPECIAL_ITEM_SCHEMA : Schema :=
  .object
    [("type", .string none), ("title", .string none), ("content", .string none),
     ("answer", .string none)]
    ["type", "content"]

/-- Output schema for the celebration section. -/
def CELEBRATION_SCHEMA : Schema :=
  .object [("title", .string none), ("description", .string none)] ["title", "description"]

/-- Output schema for the topic-suggestion mode (inline in the handler). -/
def TOPICS_SCHEMA : Schema := .array (.string none)

/-- The `options` bag of a generateSection request body. -/
structure OptionsBag where
  specialType : Option String := none
  customTopic : Option String := none
  contentLength : Option String := none
  previousContent : Option Json := none

/-- The JSON request body received by the handler; absent fields are `none`
(JavaScript `undefined`). -/
structure ReqBody where
  type : Option String := none
  sectionName : Option String := none
  date : Option String := none
  difficulty : Option String := none
  language : Option String := none
  options : Option OptionsBag := none

/-- An HTTP request as seen by the handler. -/
structure Req where
  method : String
  body : ReqBody

/-- Outcome of the single external provider call the handler may issue:
either a response (whose `.text` may be absent) or a thrown error
(whose `.message` may be absent). -/
inductive ProviderOutcome where
  | ok : Option String → ProviderOutcome
  | err : Option String → ProviderOutcome

/-- Record of one `ai.models.generateContent` invocation. -/
structure ProviderCall where
  model : String
  prompt : String
  responseSchema : Option Schema

/-- The HTTP response produced by the handler. -/
structure HandlerResponse where
  status : Nat
  body : Json

/-- Template-literal interpolation of a possibly-undefined string value. -/
def jsStr : Option String → String
  | none => "undefined"
  | some s => s

/-- JavaScript `x || d` on a possibly-undefined string: the default is used
when the value is absent or the empty string (both falsy). -/
def orDefault (s : Option String) (d : String) : String :=
  match s with
  | none => d
  | some s => if s = "" then d else s

/-- `error.message || 'Internal Server Error'` from the handler's catch block. -/
def errMessage (m : Option String) : String :=
  orDefault m "Internal Server Error"

/-- The suggestTopics prompt. -/
def suggestTopicsPrompt (date langText : String) : String :=
  "Suggest exactly 5 interesting and diverse topics for a school assembly special segment based on the date "
  ++ date
  ++ ". These could be related to historical events, environmental days, science, or moral values relevant to this time of year. Return the result "
  ++ langText ++ " as a simple JSON array of 5 strings."

/-- Task instruction for the special_item section, built from the options bag. -/
def specialItemTask (options : Option OptionsBag) : String :=
  let topicText :=
    match options.bind OptionsBag.customTopic with
    | some t => if t = "" then "" else "on the topic: \"" ++ t ++ "\""
    | none => ""
  let lengthText :=
    if options.bind OptionsBag.contentLength = some "Long" then
      "detailed and long (about 250 words)"
    else "concise and short (about 100 words)"
  let specialType := orDefault (options.bind OptionsBag.specialType) "Speech"
  "Generate a special assembly segment of type \"" ++ specialType ++ "\" " ++ topicText
  ++ ". The content should be " ++ lengthText ++ ". If it's a quiz, include the answer."

/-- The switch over `section`: chooses the output schema and the task
instruction; an unrecognized section falls through with no schema and an
empty instruction. -/
def sectionConfig (sectionName : Option String) (options : Option OptionsBag) :
    Option Schema × String :=
  if sectionName = some "word" then
    (some WORD_SCHEMA,
     "Generate an advanced but student-friendly English word with its meaning, antonym (opposite), synonym, and an example sentence.")
  else if sectionName = some "thought" then
    (some THOUGHT_SCHEMA,
     "Generate a short motivational quote from a famous personality. Include the author's name and a very brief 1-line bio.")
  else if sectionName = some "news" then
    (some NEWS_SCHEMA,
     "Generate 9 news items: 3 International, 3 National (India), and 3 Sports. Each should have a title, a 2-line summary, and a category label.")
  else if sectionName = some "special_item" then
    (some SPECIAL_ITEM_SCHEMA, specialItemTask options)
  else if sectionName = some "celebration" then
    (some CELEBRATION_SCHEMA,
     "Tell me what is celebrated or special about this specific date (festivals, international days, etc.). Provide a title and a simple description.")
  else (none, "")

/-- The repetition-guard clause: the source's conditional
`options?.previousContent ? … : ""` tests the value with JavaScript
truthiness, so the clause is appended only when a previous-content value is
supplied AND truthy — a supplied null, false, 0 or empty string produces no
guard, exactly like an absent one. -/
def avoidRepetitionPrompt (previousContent : Option Json) : String :=
  match previousContent with
  | some p =>
    if jsTruthy p then
      "\n\nCRITICAL REPETITION GUARD: The user is requesting NEW content. DO NOT repeat, rephrase, or reuse any part of the following previous content: "
      ++ Json.stringify p ++ ". Your response MUST be 100% unique and different from this."
    else ""
  | none => ""

/-- Constant prompt piece preceding the date. -/
def promptPiece0 : String := "Generate school assembly content for the date: "

/-- Constant prompt piece between date and difficulty. -/
def promptPiece1 : String := ".\n      Target Audience Difficulty Level: "

/-- Constant prompt piece between difficulty and language. -/
def promptPiece2 : String := ".\n      Primary Language: "

/-- The hard language rule embedded verbatim in every generateSection prompt. -/
def criticalLanguageRule : String :=
  "CRITICAL LANGUAGE RULE: If Primary Language is \"Hindi\", you MUST generate ALL text content (titles, summaries, meanings, quotes, stories, etc.) in Hindi script (Devanagari). For the \"Word of the Day\", provide a Hindi word with its Hindi meaning and usage."

/-- Constant prompt piece between language and section (contains the language rule). -/
def promptPiece3 : String :=
  ".\n      \n      " ++ criticalLanguageRule ++ "\n      \n      Section: "

/-- Constant prompt piece between section and the task instruction. -/
def promptPiece4 : String := ".\n      Task: "

/-- Constant prompt piece between the task/guard and the randomness nonce. -/
def promptPiece5 : String := "\n      \n      Randomness Factor: "

/-- Constant trailing prompt piece (safety rules and output-format reminder). -/
def promptPiece6 : String :=
  "\n      \n      Safety Rules:\n      - Student-safe content only.\n      - No political debate, violence, or adult topics.\n      - Positive and educational tone.\n      \n      Return the response in the specified JSON format."

/-- The full generateSection prompt template. -/
def generateSectionPrompt (date difficulty language sectionName sectionPrompt guard nonce : String) :
    String :=
  promptPiece0 ++ date ++ promptPiece1 ++ difficulty ++ promptPiece2 ++ language
  ++ promptPiece3 ++ sectionName ++ promptPiece4 ++ sectionPrompt ++ guard
  ++ promptPiece5 ++ nonce ++ promptPiece6

/-- The serverless handler of api/gemini.ts, as a function of the incoming
request, the random nonce drawn for the prompt, and the outcome of the (at
most one) external provider call. Returns the HTTP response together with the
list of provider calls issued. -/
def handler (req : Req) (nonce : String) (outcome : ProviderOutcome) :
    HandlerResponse × List ProviderCall :=
  if req.method ≠ "POST" then
    (⟨405, Json.obj [("error", Json.str "Method not allowed")]⟩, [])
  else
    let b := req.body
    if b.type = some "suggestTopics" then
      let langText := if b.language = some "Hindi" then "in Hindi script (Devanagari)" else "in English"
      let prompt := suggestTopicsPrompt (jsStr b.date) langText
      let call : ProviderCall := ⟨"gemini-3-flash-preview", prompt, some TOPICS_SCHEMA⟩
      match outcome with
      | .ok text =>
        match Json.parse (orDefault text "[]") with
        | .ok j => (⟨200, j⟩, [call])
        | .error e => (⟨500, Json.obj [("error", Json.str (errMessage (some e)))]⟩, [call])
      | .err m => (⟨500, Json.obj [("error", Json.str (errMessage m))]⟩, [call])
    else if b.type = some "generateSection" then
      let cfg := sectionConfig b.sectionName b.options
      let guard := avoidRepetitionPrompt (b.options.bind OptionsBag.previousContent)
      let prompt :=
        generateSectionPrompt (jsStr b.date) (jsStr b.difficulty) (jsStr b.language)
          (jsStr b.sectionName) cfg.2 guard nonce
      let call : ProviderCall := ⟨"gemini-3-flash-preview", prompt, cfg.1⟩
      match outcome with
      | .ok text =>
        match Json.parse (orDefault text "\x7b\x7d") with
        | .ok j => (⟨200, j⟩, [call])
        | .error e => (⟨500, Json.obj [("error", Json.str (errMessage (some e)))]⟩, [call])
      | .err m => (⟨500, Json.obj [("error", Json.str (errMessage m))]⟩, [call])
    else
      (⟨400, Json.obj [("error", Json.str "Invalid request type")]⟩, [])

end Api

namespace Services

/-- An HTTP response as seen by the browser-side client: the success flag and
the raw body text (so `response.json()` is modelled by `Json.parse`). -/
structure HttpResponse where
  ok : Bool
  bodyText : String

mutual

/-- JavaScript `String(v)` coercion of a defined JSON value. -/
def jsDisplay : Json → String
  | .null => "null"
  | .bool b => if b then "true" else "false"
  | .num n => toString n
  | .str s => s
  | .arr xs => jsDisplayElems xs
  | .obj _ => "[object Object]"

/-- `Array.prototype.toString`: elements joined by commas, null as empty. -/
def jsDisplayElems : List Json → String
  | [] => ""
  | [x] => jsDisplayElem x
  | x :: xs => jsDisplayElem x ++ "," ++ jsDisplayElems xs

/-- One array element inside a join: null renders as the empty string. -/
def jsDisplayElem : Json → String
  | .null => ""
  | .bool b => if b then "true" else "false"
  | .num n => toString n
  | .str s => s
  | .arr xs => jsDisplayElems xs
  | .obj _ => "[object Object]"

end

/-- JavaScript object-member lookup (last matching key wins, as for
duplicate keys from `JSON.parse`). -/
def lookupField (fs : List (String × Json)) (key : String) : Option Json :=
  fs.foldl (fun acc p => if p.1 = key then some p.2 else acc) none

/-- JavaScript property access `j.k` on a parsed JSON value: throws a
TypeError on null, yields undefined on non-objects and missing keys. -/
def jsMember (j : Json) (k : String) : Except String (Option Json) :=
  match j with
  | .null => .error ("Cannot read properties of null (reading '" ++ k ++ "')")
  | .obj fs => .ok (lookupField fs k)
  | _ => .ok none

/-- The message of the error raised by the client on a non-ok response:
`error.error || generic` after `await response.json()`, where a rejection of
`response.json()` (unparseable body) or of the member access propagates as-is. -/
def failedMessage (generic : String) (parsedBody : Except String Json) : String :=
  match parsedBody with
  | .error e => e
  | .ok j =>
    match jsMember j "error" with
    | .error typeError => typeError
    | .ok v =>
      match v with
      | some jv => if jsTruthy jv then jsDisplay jv else generic
      | none => generic

/-- The client's `generateSection`, as a function of the HTTP response it
receives: on success, the parsed body; otherwise the raised error's message. -/
def generateSection (resp : HttpResponse) : Except String Json :=
  if resp.ok then Json.parse resp.bodyText
  else .error (failedMessage "Failed to generate content" (Json.parse resp.bodyText))

/-- The client's `suggestTopics`, as a function of the HTTP response. -/
def suggestTopics (resp : HttpResponse) : Except String Json :=
  if resp.ok then Json.parse resp.bodyText
  else .error (failedMessage "Failed to suggest topics" (Json.parse resp.bodyText))

end Services

namespace App

/-- The default AppSettings record used when nothing is persisted. -/
def defaultSettings : Json :=
  Json.obj
    [("difficulty", Json.str "Middle"), ("language", Json.str "English"),
     ("themeColor", Json.str "#6366f1"), ("isDarkMode", Json.bool true)]

/-- The useState initializer for settings:
`saved ? JSON.parse(saved) : defaults` on `localStorage.getItem('assembly_settings_v2')`
(`getItem` yields null for an absent key; the empty string is falsy too).
A throwing `JSON.parse` is the `Except.error` case. -/
def loadSettings (saved : Option String) : Except String Json :=
  match saved with
  | none => .ok defaultSettings
  | some s => if s = "" then .ok defaultSettings else Json.parse s

/-- The empty AssemblyData record stamped with the current time. -/
def emptyData (now : String) : Json := Json.obj [("timestamp", Json.str now)]

/-- The useState initializer for assembly data under key `assembly_data_v2`. -/
def loadData (saved : Option String) (now : String) : Except String Json :=
  match saved with
  | none => .ok (emptyData now)
  | some s => if s = "" then .ok (emptyData now) else Json.parse s

/-- The greeting computation from the current hour (0–23). -/
def updateGreeting (hour : Nat) : String :=
  if hour < 12 then "Good Morning"
  else if hour < 17 then "Good Afternoon"
  else "Good Evening"

/-- The five generatable sections. -/
inductive Section where
  | word
  | thought
  | news
  | special_item
  | celebration
deriving DecidableEq

/-- The section's name as used in keys, request bodies and error messages. -/
def Section.name : Section → String
  | .word => "word"
  | .thought => "thought"
  | .news => "news"
  | .special_item => "special_item"
  | .celebration => "celebration"

/-- The AssemblyData aggregate held in component state; section values are the
parsed JSON returned by the client. -/
structure AssemblyData where
  word : Option Json := none
  thought : Option Json := none
  news : Option Json := none
  special_item : Option Json := none
  celebration : Option Json := none
  suggested_topics : Option Json := none
  timestamp : String

/-- Read one section's value (`data[section]`). -/
def AssemblyData.get (d : AssemblyData) : Section → Option Json
  | .word => d.word
  | .thought => d.thought
  | .news => d.news
  | .special_item => d.special_item
  | .celebration => d.celebration

/-- The success update `{...prev, [section]: result, timestamp: now}`. -/
def AssemblyData.setSection (d : AssemblyData) (sec : Section) (v : Json) (now : String) :
    AssemblyData :=
  match sec with
  | .word => { d with word := some v, timestamp := now }
  | .thought => { d with thought := some v, timestamp := now }
  | .news => { d with news := some v, timestamp := now }
  | .special_item => { d with special_item := some v, timestamp := now }
  | .celebration => { d with celebration := some v, timestamp := now }

/-- The persisted user settings. -/
structure AppSettings where
  difficulty : String
  language : String
  themeColor : String
  isDarkMode : Bool

/-- The slice of UI-shell state that `handleGenerateSection` reads or writes. -/
structure UIState where
  data : AssemblyData
  loadingSections : Section → Bool
  error : Option String
  selectedDate : String
  isOnline : Bool
  settings : AppSettings
  specialType : String
  customTopic : String
  contentLength : String

/-- The arguments of one Generation Client call issued by the handler. -/
structure GenCall where
  sec : Section
  date : String
  difficulty : String
  language : String
  specialType : String
  customTopic : String
  contentLength : String
  previousContent : Option Json

/-- `handleGenerateSection`, as a function of the starting state and the
outcome of the (at most one) client call. Returns the successive states
produced by each state update, in order, together with the client call issued
(none when the offline guard short-circuits). -/
def handleGenerateSection (st : UIState) (sec : Section) (now : String)
    (oracle : Except String Json) : List UIState × Option GenCall :=
  if st.isOnline = false then
    ([{ st with error := some "No internet connection." }], none)
  else
    let st1 : UIState :=
      { st with loadingSections := fun t => if t = sec then true else st.loadingSections t,
                error := none }
    let call : GenCall :=
      { sec := sec, date := st.selectedDate, difficulty := st.settings.difficulty,
        language := st.settings.language, specialType := st.specialType,
        customTopic := st.customTopic, contentLength := st.contentLength,
        previousContent := st.data.get sec }
    match oracle with
    | .ok result =>
      let st2 := { st1 with data := st1.data.setSection sec result now }
      let st3 :=
        { st2 with loadingSections := fun t => if t = sec then false else st2.loadingSections t }
      ([st1, st2, st3], some call)
    | .error _ =>
      let st2 := { st1 with error := some ("Failed to generate " ++ sec.name ++ ". Please try again.") }
      let st3 :=
        { st2 with loadingSections := fun t => if t = sec then false else st2.loadingSections t }
      ([st1, st2, st3], some call)

end App

/-! ### Toolkit: locating (or excluding) substrings in concatenated prompts -/

/-- A prefix of `a ++ c :: b` that avoids `c` is a prefix of `a`. -/
theorem prefix_append_cons_split {α : Type} {m a b : List α} {c : α}
    (hc : c ∉ m) (h : m <+: a ++ c :: b) : m <+: a := by
  induction m generalizing a with
  | nil => exact List.nil_prefix
  | cons y m' ih =>
    cases a with
    | nil =>
      rcases List.cons_prefix_cons.mp h with ⟨rfl, -⟩
      exact absurd (List.mem_cons_self _ _) hc
    | cons x a' =>
      rcases List.cons_prefix_cons.mp h with ⟨rfl, h'⟩
      exact List.cons_prefix_cons.mpr ⟨rfl, ih (fun hm => hc (List.mem_cons_of_mem _ hm)) h'⟩

/-- An infix of `a ++ c :: b` that avoids the separator `c` lies wholly in
`a` or wholly in `b`. -/
theorem infix_append_cons_split {α : Type} {m : List α} {c : α} (hc : c ∉ m) :
    ∀ {a b : List α}, m <:+: a ++ c :: b → m <:+: a ∨ m <:+: b := by
  intro a
  induction a with
  | nil =>
    intro b h
    rcases List.infix_cons_iff.mp h with h' | h'
    · cases m with
      | nil => exact Or.inl List.nil_infix
      | cons y m' =>
        rcases List.cons_prefix_cons.mp h' with ⟨rfl, -⟩
        exact absurd (List.mem_cons_self _ _) hc
    · exact Or.inr h'
  | cons x a' ih =>
    intro b h
    rcases List.infix_cons_iff.mp h with h' | h'
    · have h'' : m <+: (x :: a') ++ c :: b := h'
      exact Or.inl (prefix_append_cons_split hc h'').isInfix
    · rcases ih h' with h'' | h''
      · exact Or.inl (h''.trans (List.infix_cons_iff.mpr (Or.inr List.infix_rfl)))
      · exact Or.inr h''

/-- Build absence of an infix across a separator. -/
theorem not_infix_sep {α : Type} {m a b : List α} {c : α} (hc : c ∉ m)
    (ha : ¬ m <:+: a) (hb : ¬ m <:+: b) : ¬ m <:+: a ++ c :: b := fun h =>
  (infix_append_cons_split hc h).elim ha hb

/-- Build absence of an infix across a two-character `c₁ c₂` boundary
(used for the `": "` boundaries preceding every prompt interpolation). -/
theorem not_infix_colon_chunk {α : Type} {m q x : List α} {c₁ c₂ : α} (hc : c₁ ∉ m)
    (hq : ¬ m <:+: q) (hhd : m.head? ≠ some c₂) (hx : ¬ m <:+: x) :
    ¬ m <:+: q ++ c₁ :: c₂ :: x := by
  intro h
  rcases infix_append_cons_split hc h with h' | h'
  · exact hq h'
  · rcases List.infix_cons_iff.mp h' with h'' | h''
    · cases m with
      | nil => exact hq List.nil_infix
      | cons y m' =>
        rcases List.cons_prefix_cons.mp h'' with ⟨rfl, -⟩
        exact hhd rfl
    · exact hx h''

/-- The CRITICAL LANGUAGE RULE text occurs in every generateSection prompt,
whatever the request's language. -/
theorem criticalRule_infix_prompt (d f l s sp g n : String) :
    Api.criticalLanguageRule.data <:+: (Api.generateSectionPrompt d f l s sp g n).data :=
  ⟨(Api.promptPiece0 ++ d ++ Api.promptPiece1 ++ f ++ Api.promptPiece2 ++ l
      ++ ".\n      \n      ").data,
   ("\n      \n      Section: " ++ s ++ Api.promptPiece4 ++ sp ++ g ++ Api.promptPiece5
      ++ n ++ Api.promptPiece6).data,
   by simp [Api.generateSectionPrompt, Api.promptPiece3, String.data_append,
        List.append_assoc]⟩

/-- Every generateSection prompt carries the line
`Primary Language: {language}`. -/
theorem primaryLanguage_infix_prompt (d f l s sp g n : String) :
    ("Primary Language: " ++ l).data <:+: (Api.generateSectionPrompt d f l s sp g n).data := by
  have hsplit : Api.promptPiece2.data = (".\n      ").data ++ ("Primary Language: ").data := rfl
  exact ⟨(Api.promptPiece0 ++ d ++ Api.promptPiece1 ++ f ++ ".\n      ").data,
    (Api.promptPiece3 ++ s ++ Api.promptPiece4 ++ sp ++ g ++ Api.promptPiece5
      ++ n ++ Api.promptPiece6).data,
    by simp [Api.generateSectionPrompt, hsplit, String.data_append, List.append_assoc]⟩

/-- A supplied-but-falsy previous content (null, false, 0, empty string)
yields no repetition guard, exactly like an absent one. -/
theorem avoidRepetitionPrompt_falsy (p : Json) (hfa : jsTruthy p = false) :
    Api.avoidRepetitionPrompt (some p) = "" := by
  simp [Api.avoidRepetitionPrompt, hfa]

/-- When a truthy previous content induces a repetition guard, the guard's
marker text occurs in the prompt. -/
theorem guardMarker_infix_prompt (d f l s sp n : String) (p : Json)
    (htr : jsTruthy p = true) :
    ("CRITICAL REPETITION GUARD").data <:+:
      (Api.generateSectionPrompt d f l s sp (Api.avoidRepetitionPrompt (some p)) n).data := by
  have hsplit :
      ("\n\nCRITICAL REPETITION GUARD: The user is requesting NEW content. DO NOT repeat, rephrase, or reuse any part of the following previous content: " : String).data
        = ("\n\n").data ++ ("CRITICAL REPETITION GUARD").data
          ++ (": The user is requesting NEW content. DO NOT repeat, rephrase, or reuse any part of the following previous content: ").data := rfl
  exact ⟨(Api.promptPiece0 ++ d ++ Api.promptPiece1 ++ f ++ Api.promptPiece2 ++ l
      ++ Api.promptPiece3 ++ s ++ Api.promptPiece4 ++ sp ++ "\n\n").data,
    ((": The user is requesting NEW content. DO NOT repeat, rephrase, or reuse any part of the following previous content: " ++ Json.stringify p
      ++ ". Your response MUST be 100% unique and different from this.")
      ++ Api.promptPiece5 ++ n ++ Api.promptPiece6).data,
    by simp [Api.generateSectionPrompt, Api.avoidRepetitionPrompt, htr, hsplit,
         String.data_append, List.append_assoc]⟩

/-- When a truthy previous content induces a repetition guard, the exact JSON
serialization of that previous content occurs in the prompt. -/
theorem stringify_infix_prompt (d f l s sp n : String) (p : Json)
    (htr : jsTruthy p = true) :
    (Json.stringify p).data <:+:
      (Api.generateSectionPrompt d f l s sp (Api.avoidRepetitionPrompt (some p)) n).data :=
  ⟨(Api.promptPiece0 ++ d ++ Api.promptPiece1 ++ f ++ Api.promptPiece2 ++ l
      ++ Api.promptPiece3 ++ s ++ Api.promptPiece4 ++ sp
      ++ "\n\nCRITICAL REPETITION GUARD: The user is requesting NEW content. DO NOT repeat, rephrase, or reuse any part of the following previous content: ").data,
   ((". Your response MUST be 100% unique and different from this." : String)
      ++ Api.promptPiece5 ++ n ++ Api.promptPiece6).data,
   by simp [Api.generateSectionPrompt, Api.avoidRepetitionPrompt, htr, String.data_append,
        List.append_assoc]⟩

/-- Decomposition of a guardless generateSection prompt exposing the `": "`,
`"."` and newline separators around every interpolated value. -/
theorem promptData_decomp (d f l s sp n : String) :
    (Api.generateSectionPrompt d f l s sp "" n).data =
      ("Generate school assembly content for the date").data ++ ':' :: ' ' ::
       (d.data ++ '.' ::
        (("\n      Target Audience Difficulty Level").data ++ ':' :: ' ' ::
         (f.data ++ '.' ::
          (("\n      Primary Language").data ++ ':' :: ' ' ::
           (l.data ++ '.' ::
            (("\n      \n      CRITICAL LANGUAGE RULE: If Primary Language is \"Hindi\", you MUST generate ALL text content (titles, summaries, meanings, quotes, stories, etc.) in Hindi script (Devanagari). For the \"Word of the Day\", provide a Hindi word with its Hindi meaning and usage.\n      \n      Section").data ++ ':' :: ' ' ::
             (s.data ++ '.' ::
              (("\n      Task").data ++ ':' :: ' ' ::
               (sp.data ++ '\n' ::
                (("      \n      Randomness Factor").data ++ ':' :: ' ' ::
                 (n.data ++ '\n' ::
                  ("      \n      Safety Rules:\n      - Student-safe content only.\n      - No political debate, violence, or adult topics.\n      - Positive and educational tone.\n      \n      Return the response in the specified JSON format.").data))))))))))) := by
  have he0 : Api.promptPiece0.data =
      ("Generate school assembly content for the date").data ++ [':', ' '] := rfl
  have he1 : Api.promptPiece1.data =
      '.' :: (("\n      Target Audience Difficulty Level").data ++ [':', ' ']) := rfl
  have he2 : Api.promptPiece2.data =
      '.' :: (("\n      Primary Language").data ++ [':', ' ']) := rfl
  have he3 : Api.promptPiece3.data =
      '.' :: (("\n      \n      CRITICAL LANGUAGE RULE: If Primary Language is \"Hindi\", you MUST generate ALL text content (titles, summaries, meanings, quotes, stories, etc.) in Hindi script (Devanagari). For the \"Word of the Day\", provide a Hindi word with its Hindi meaning and usage.\n      \n      Section").data ++ [':', ' ']) := rfl
  have he4 : Api.promptPiece4.data = '.' :: (("\n      Task").data ++ [':', ' ']) := rfl
  have he5 : Api.promptPiece5.data =
      '\n' :: (("      \n      Randomness Factor").data ++ [':', ' ']) := rfl
  have he6 : Api.promptPiece6.data =
      '\n' :: ("      \n      Safety Rules:\n      - Student-safe content only.\n      - No political debate, violence, or adult topics.\n      - Positive and educational tone.\n      \n      Return the response in the specified JSON format.").data := rfl
  have hemp : ("" : String).data = [] := rfl
  simp [Api.generateSectionPrompt, String.data_append, he0, he1, he2, he3, he4, he5, he6,
    hemp, List.append_assoc]

/-- A guardless generateSection prompt contains the repetition-guard marker
nowhere, provided none of the interpolated values smuggles it in. -/
theorem guardMarker_not_infix_prompt (d f l s sp n : String)
    (hd : ¬ ("CRITICAL REPETITION GUARD").data <:+: d.data)
    (hf : ¬ ("CRITICAL REPETITION GUARD").data <:+: f.data)
    (hl : ¬ ("CRITICAL REPETITION GUARD").data <:+: l.data)
    (hsec : ¬ ("CRITICAL REPETITION GUARD").data <:+: s.data)
    (hsp : ¬ ("CRITICAL REPETITION GUARD").data <:+: sp.data)
    (hn : ¬ ("CRITICAL REPETITION GUARD").data <:+: n.data) :
    ¬ ("CRITICAL REPETITION GUARD").data <:+:
      (Api.generateSectionPrompt d f l s sp "" n).data := by
  have hdot : '.' ∉ ("CRITICAL REPETITION GUARD").data := by decide
  have hnl : '\n' ∉ ("CRITICAL REPETITION GUARD").data := by decide
  have hcol : ':' ∉ ("CRITICAL REPETITION GUARD").data := by decide
  have hhd : ("CRITICAL REPETITION GUARD").data.head? ≠ some ' ' := by decide
  rw [promptData_decomp]
  refine not_infix_colon_chunk hcol (by decide) hhd ?_
  refine not_infix_sep hdot hd ?_
  refine not_infix_colon_chunk hcol (by decide) hhd ?_
  refine not_infix_sep hdot hf ?_
  refine not_infix_colon_chunk hcol (by decide) hhd ?_
  refine not_infix_sep hdot hl ?_
  refine not_infix_colon_chunk hcol (by decide) hhd ?_
  refine not_infix_sep hdot hsec ?_
  refine not_infix_colon_chunk hcol (by decide) hhd ?_
  refine not_infix_sep hnl hsp ?_
  refine not_infix_colon_chunk hcol (by decide) hhd ?_
  exact not_infix_sep hnl hn (by decide)

/-- On a POST generateSection request the handler issues exactly one provider
call, with the assembled prompt and the section's schema. -/
theorem handler_generateSection_calls (req : Api.Req) (nonce : String)
    (outcome : Api.ProviderOutcome) (hm : req.method = "POST")
    (ht : req.body.type = some "generateSection") :
    (Api.handler req nonce outcome).2 =
      [⟨"gemini-3-flash-preview",
        Api.generateSectionPrompt (Api.jsStr req.body.date) (Api.jsStr req.body.difficulty)
          (Api.jsStr req.body.language) (Api.jsStr req.body.sectionName)
          (Api.sectionConfig req.body.sectionName req.body.options).2
          (Api.avoidRepetitionPrompt (req.body.options.bind Api.OptionsBag.previousContent))
          nonce,
        (Api.sectionConfig req.body.sectionName req.body.options).1⟩] := by
  cases outcome with
  | ok text =>
    rcases hp : Json.parse (Api.orDefault text "\x7b\x7d") with e | j <;>
      simp [Api.handler, hm, ht, hp]
  | err m => simp [Api.handler, hm, ht]

/-! ### Claim theorems -/

/-- **C8**: for every hour of the day, the greeting computation yields
"Good Morning" for hours 0–11, "Good Afternoon" for hours 12–16, and
"Good Evening" for hours 17–23. -/
theorem c8_greeting_boundaries :
    (∀ h : Nat, h ≤ 11 → App.updateGreeting h = "Good Morning") ∧
    (∀ h : Nat, 12 ≤ h → h ≤ 16 → App.updateGreeting h = "Good Afternoon") ∧
    (∀ h : Nat, 17 ≤ h → h ≤ 23 → App.updateGreeting h = "Good Evening") := by
  refine ⟨fun h hh => ?_, fun h h1 h2 => ?_, fun h h1 h2 => ?_⟩
  · unfold App.updateGreeting
    rw [if_pos (by omega)]
  · unfold App.updateGreeting
    rw [if_neg (by omega), if_pos (by omega)]
  · unfold App.updateGreeting
    rw [if_neg (by omega), if_neg (by omega)]

/-- Witness for C8 at the boundary hours. -/
theorem c8_greeting_boundaries_witness :
    App.updateGreeting 0 = "Good Morning" ∧ App.updateGreeting 11 = "Good Morning" ∧
    App.updateGreeting 12 = "Good Afternoon" ∧ App.updateGreeting 16 = "Good Afternoon" ∧
    App.updateGreeting 17 = "Good Evening" ∧ App.updateGreeting 23 = "Good Evening" :=
  ⟨c8_greeting_boundaries.1 0 (by decide), c8_greeting_boundaries.1 11 (by decide),
   c8_greeting_boundaries.2.1 12 (by decide) (by decide),
   c8_greeting_boundaries.2.1 16 (by decide) (by decide),
   c8_greeting_boundaries.2.2 17 (by decide) (by decide),
   c8_greeting_boundaries.2.2 23 (by decide) (by decide)⟩

/-- **C4**: a non-POST request yields 405 `{error: "Method not allowed"}`
with no provider call; a POST whose type is neither `suggestTopics` nor
`generateSection` yields 400 `{error: "Invalid request type"}` with no
provider call; an exception from the provider call (either mode) or from
parsing its output (generateSection and suggestTopics modes alike) yields
500 carrying the exception's message, or "Internal Server Error" when none
is available. -/
theorem c4_proxy_error_responses :
    (∀ (req : Api.Req) (nonce : String) (outcome : Api.ProviderOutcome),
      req.method ≠ "POST" →
        Api.handler req nonce outcome =
          (⟨405, Json.obj [("error", Json.str "Method not allowed")]⟩, [])) ∧
    (∀ (req : Api.Req) (nonce : String) (outcome : Api.ProviderOutcome),
      req.method = "POST" → req.body.type ≠ some "suggestTopics" →
      req.body.type ≠ some "generateSection" →
        Api.handler req nonce outcome =
          (⟨400, Json.obj [("error", Json.str "Invalid request type")]⟩, [])) ∧
    (∀ (req : Api.Req) (nonce : String) (m : Option String),
      req.method = "POST" →
      req.body.type = some "suggestTopics" ∨ req.body.type = some "generateSection" →
        (Api.handler req nonce (.err m)).1 =
          ⟨500, Json.obj [("error", Json.str (Api.errMessage m))]⟩) ∧
    (∀ (req : Api.Req) (nonce : String) (text : Option String) (e : String),
      req.method = "POST" → req.body.type = some "generateSection" →
      Json.parse (Api.orDefault text "\x7b\x7d") = .error e →
        (Api.handler req nonce (.ok text)).1 =
          ⟨500, Json.obj [("error", Json.str (Api.errMessage (some e)))]⟩) ∧
    (∀ (req : Api.Req) (nonce : String) (text : Option String) (e : String),
      req.method = "POST" → req.body.type = some "suggestTopics" →
      Json.parse (Api.orDefault text "[]") = .error e →
        (Api.handler req nonce (.ok text)).1 =
          ⟨500, Json.obj [("error", Json.str (Api.errMessage (some e)))]⟩) ∧
    (∀ s : String, s ≠ "" → Api.errMessage (some s) = s) ∧
    Api.errMessage none = "Internal Server Error" ∧
    Api.errMessage (some "") = "Internal Server Error" := by
  refine ⟨fun req nonce outcome h => ?_, fun req nonce outcome hm h1 h2 => ?_,
    fun req nonce m hm h => ?_, fun req nonce text e hm ht hp => ?_,
    fun req nonce text e hm ht hp => ?_, fun s hs => ?_, rfl, rfl⟩
  · simp [Api.handler, h]
  · simp [Api.handler, hm, h1, h2]
  · rcases h with h | h <;> simp [Api.handler, hm, h]
  · simp [Api.handler, hm, ht, hp]
  · simp [Api.handler, hm, ht, hp]
  · simp [Api.errMessage, Api.orDefault, hs]

/-- Witness for C4: a GET request, an unknown type, a thrown provider error
with and without a message, and a provider success whose text is unparseable
(in each of the two modes). -/
theorem c4_proxy_error_responses_witness :
    Api.handler ⟨"GET", ⟨none, none, none, none, none, none⟩⟩ "r" (.ok none) =
      (⟨405, Json.obj [("error", Json.str "Method not allowed")]⟩, []) ∧
    Api.handler ⟨"POST", ⟨some "unknown", none, none, none, none, none⟩⟩ "r" (.ok none) =
      (⟨400, Json.obj [("error", Json.str "Invalid request type")]⟩, []) ∧
    (Api.handler ⟨"POST", ⟨some "suggestTopics", none, none, none, none, none⟩⟩ "r"
        (.err (some "quota exceeded"))).1 =
      ⟨500, Json.obj [("error", Json.str (Api.errMessage (some "quota exceeded")))]⟩ ∧
    (Api.handler ⟨"POST", ⟨some "generateSection", some "word", none, none, none, none⟩⟩ "r"
        (.err none)).1 =
      ⟨500, Json.obj [("error", Json.str (Api.errMessage none))]⟩ ∧
    (Api.handler ⟨"POST", ⟨some "generateSection", some "word", none, none, none, none⟩⟩ "r"
        (.ok (some "oops"))).1 =
      ⟨500, Json.obj [("error", Json.str (Api.errMessage (some "Unexpected token o in JSON")))]⟩ ∧
    (Api.handler ⟨"POST", ⟨some "suggestTopics", none, none, none, none, none⟩⟩ "r"
        (.ok (some "oops"))).1 =
      ⟨500, Json.obj [("error", Json.str (Api.errMessage (some "Unexpected token o in JSON")))]⟩ ∧
    Api.errMessage (some "quota exceeded") = "quota exceeded" :=
  ⟨c4_proxy_error_responses.1 _ "r" _ (by decide),
   c4_proxy_error_responses.2.1 _ "r" _ rfl (by decide) (by decide),
   c4_proxy_error_responses.2.2.1 _ "r" _ rfl (Or.inl rfl),
   c4_proxy_error_responses.2.2.1 _ "r" _ rfl (Or.inr rfl),
   c4_proxy_error_responses.2.2.2.1 _ "r" (some "oops") _ rfl rfl rfl,
   c4_proxy_error_responses.2.2.2.2.1 _ "r" (some "oops") _ rfl rfl rfl,
   c4_proxy_error_responses.2.2.2.2.2.1 "quota exceeded" (by decide)⟩

/-- **C5**: while offline, `handleGenerateSection` issues no client call,
sets the error to exactly "No internet connection.", and leaves every
section's loading flag and the AssemblyData aggregate unchanged. -/
theorem c5_offline_short_circuit (st : App.UIState) (sec : App.Section) (now : String)
    (oracle : Except String Json) (hoff : st.isOnline = false) :
    (App.handleGenerateSection st sec now oracle).2 = none ∧
    ∀ st' ∈ (App.handleGenerateSection st sec now oracle).1,
      st'.error = some "No internet connection." ∧ st'.data = st.data ∧
      ∀ t, st'.loadingSections t = st.loadingSections t := by
  refine ⟨?_, ?_⟩ <;> simp [App.handleGenerateSection, hoff]

/-- Witness for C5 on a concrete offline state. -/
theorem c5_offline_short_circuit_witness :
    (App.handleGenerateSection
        ⟨⟨none, none, none, none, none, none, "t0"⟩, fun _ => false, none,
         "2024-05-01", false, ⟨"Middle", "English", "#6366f1", true⟩,
         "Speech", "", "Short"⟩
        App.Section.word "t1" (.ok Json.null)).2 = none ∧
    ∀ st' ∈ (App.handleGenerateSection
        ⟨⟨none, none, none, none, none, none, "t0"⟩, fun _ => false, none,
         "2024-05-01", false, ⟨"Middle", "English", "#6366f1", true⟩,
         "Speech", "", "Short"⟩
        App.Section.word "t1" (.ok Json.null)).1,
      st'.error = some "No internet connection." ∧
      st'.data = ⟨none, none, none, none, none, none, "t0"⟩ ∧
      ∀ t, st'.loadingSections t = false :=
  c5_offline_short_circuit _ App.Section.word "t1" (.ok Json.null) rfl

/-- **C9**: an absent or empty model response text still yields HTTP 200,
whose body is `[]` in suggestTopics mode and `\x7b\x7d` (a record with none
of the declared fields) in generateSection mode. -/
theorem c9_empty_model_text (req : Api.Req) (nonce : String) (text : Option String)
    (hm : req.method = "POST") (htext : text = none ∨ text = some "") :
    (req.body.type = some "suggestTopics" →
      (Api.handler req nonce (.ok text)).1 = ⟨200, Json.arr []⟩) ∧
    (req.body.type = some "generateSection" →
      (Api.handler req nonce (.ok text)).1 = ⟨200, Json.obj []⟩) ∧
    (∀ k, Services.jsMember (Json.obj []) k = .ok none) := by
  have harr : Json.parse "[]" = .ok (Json.arr []) := rfl
  have hobj : Json.parse "\x7b\x7d" = .ok (Json.obj []) := rfl
  refine ⟨fun ht => ?_, fun ht => ?_, fun k => rfl⟩ <;>
    rcases htext with rfl | rfl <;>
      simp [Api.handler, hm, ht, Api.orDefault, harr, hobj]

/-- Witness for C9 at concrete empty-text provider responses. -/
theorem c9_empty_model_text_witness :
    (Api.handler ⟨"POST", ⟨some "suggestTopics", none, some "2024-05-01", none, none, none⟩⟩
        "r" (.ok none)).1 = ⟨200, Json.arr []⟩ ∧
    (Api.handler ⟨"POST", ⟨some "generateSection", some "word", some "2024-05-01", none, none, none⟩⟩
        "r" (.ok (some ""))).1 = ⟨200, Json.obj []⟩ ∧
    Services.jsMember (Json.obj []) "word" = .ok none :=
  ⟨(c9_empty_model_text _ "r" none rfl (Or.inl rfl)).1 rfl,
   (c9_empty_model_text _ "r" (some "") rfl (Or.inr rfl)).2.1 rfl,
   (c9_empty_model_text ⟨"POST", ⟨some "suggestTopics", none, none, none, none, none⟩⟩
      "r" none rfl (Or.inl rfl)).2.2 "word"⟩

/-- **C3** fails as stated: malformed persisted content does not fall back to
the defaults — the `JSON.parse` call in the state initializer throws. The
single character `\x7b` is malformed, yet loading raises a parse error
instead of yielding the default settings record. -/
theorem c3_malformed_settings_counterexample :
    App.loadSettings (some "\x7b") = .error "Unexpected end of JSON input" ∧
    ∀ j : Json, (Except.error "Unexpected end of JSON input" : Except String Json) ≠ .ok j :=
  ⟨rfl, fun _ h => Except.noConfusion h⟩

/-- **C3** (amended): when the persisted entry is absent (or the falsy empty
string), loading yields the default AppSettings record (resp. the empty
AssemblyData stamped with the current time); any other persisted string is
handed to JSON.parse unguarded, so malformed content propagates the parse
failure rather than falling back. -/
theorem c3_default_fallback :
    App.loadSettings none = .ok App.defaultSettings ∧
    App.loadSettings (some "") = .ok App.defaultSettings ∧
    (∀ s : String, s ≠ "" → App.loadSettings (some s) = Json.parse s) ∧
    (∀ now : String, App.loadData none now = .ok (App.emptyData now)) ∧
    (∀ now : String, App.loadData (some "") now = .ok (App.emptyData now)) ∧
    (∀ (s now : String), s ≠ "" → App.loadData (some s) now = Json.parse s) := by
  refine ⟨rfl, rfl, fun s hs => ?_, fun now => rfl, fun now => rfl, fun s now hs => ?_⟩ <;>
    simp [App.loadSettings, App.loadData, hs]

/-- Witness for C3 (amended): a malformed persisted settings string raises
the parse failure, and a well-formed one is returned as parsed. -/
theorem c3_default_fallback_witness :
    App.loadSettings (some "\x7b\"isDarkMode\":") = Json.parse "\x7b\"isDarkMode\":" ∧
    App.loadData (some "\x7b\"timestamp\":\"t9\"\x7d") "now" =
      Json.parse "\x7b\"timestamp\":\"t9\"\x7d" :=
  ⟨c3_default_fallback.2.2.1 _ (by decide), c3_default_fallback.2.2.2.2.2 _ "now" (by decide)⟩

/-- **C2** fails as stated: when the Proxy's error body is unparseable, the
client's `response.json()` call rejects and that parse failure propagates —
the raised message is not the generic "Failed to generate content". -/
theorem c2_unparseable_body_counterexample :
    Services.generateSection ⟨false, "not json"⟩ = .error "Unexpected token n in JSON" ∧
    Services.suggestTopics ⟨false, "not json"⟩ = .error "Unexpected token n in JSON" ∧
    "Unexpected token n in JSON" ≠ "Failed to generate content" ∧
    "Unexpected token n in JSON" ≠ "Failed to suggest topics" :=
  ⟨rfl, rfl, by decide, by decide⟩

/-- **C2** (amended): on every non-ok response the client raises an error:
its message is the Proxy's reported error string when the parsed body
carries a non-empty one; the generic message when the body parses but its
`error` member is absent; and when the body is unparseable the JSON parse
failure itself propagates as the raised message. -/
theorem c2_client_error_messages :
    (∀ (body : String) (j : Json) (s : String),
      Json.parse body = .ok j → Services.jsMember j "error" = .ok (some (Json.str s)) →
      s ≠ "" →
        Services.generateSection ⟨false, body⟩ = .error s ∧
        Services.suggestTopics ⟨false, body⟩ = .error s) ∧
    (∀ (body : String) (j : Json),
      Json.parse body = .ok j → Services.jsMember j "error" = .ok none →
        Services.generateSection ⟨false, body⟩ = .error "Failed to generate content" ∧
        Services.suggestTopics ⟨false, body⟩ = .error "Failed to suggest topics") ∧
    (∀ (body e : String),
      Json.parse body = .error e →
        Services.generateSection ⟨false, body⟩ = .error e ∧
        Services.suggestTopics ⟨false, body⟩ = .error e) := by
  refine ⟨fun body j s hb he hs => ?_, fun body j hb he => ?_, fun body e hb => ?_⟩
  · simp [Services.generateSection, Services.suggestTopics, Services.failedMessage,
      hb, he, jsTruthy, Services.jsDisplay, hs]
  · simp [Services.generateSection, Services.suggestTopics, Services.failedMessage, hb, he]
  · simp [Services.generateSection, Services.suggestTopics, Services.failedMessage, hb]

/-- Witness for C2 (amended) at concrete proxy error bodies. -/
theorem c2_client_error_messages_witness :
    (Services.generateSection ⟨false, "\x7b\"error\":\"boom\"\x7d"⟩ = .error "boom" ∧
     Services.suggestTopics ⟨false, "\x7b\"error\":\"boom\"\x7d"⟩ = .error "boom") ∧
    (Services.generateSection ⟨false, "\x7b\"other\":1\x7d"⟩ =
        .error "Failed to generate content" ∧
     Services.suggestTopics ⟨false, "\x7b\"other\":1\x7d"⟩ =
        .error "Failed to suggest topics") ∧
    (Services.generateSection ⟨false, "\x7b"⟩ = .error "Unexpected end of JSON input" ∧
     Services.suggestTopics ⟨false, "\x7b"⟩ = .error "Unexpected end of JSON input") :=
  ⟨c2_client_error_messages.1 _ (Json.obj [("error", Json.str "boom")]) "boom" rfl rfl
      (by decide),
   c2_client_error_messages.2.1 _ (Json.obj [("other", Json.num 1)]) rfl rfl,
   c2_client_error_messages.2.2 "\x7b" "Unexpected end of JSON input" rfl⟩

/-- Updating one section leaves every other section's value unchanged. -/
theorem assemblyData_get_setSection_ne (d : App.AssemblyData) (sec t : App.Section)
    (v : Json) (now : String) (h : t ≠ sec) :
    (d.setSection sec v now).get t = d.get t := by
  cases sec <;> cases t <;> first | rfl | exact absurd rfl h

/-- Updating one section leaves the (unused) suggested_topics field unchanged. -/
theorem assemblyData_setSection_suggested (d : App.AssemblyData) (sec : App.Section)
    (v : Json) (now : String) :
    (d.setSection sec v now).suggested_topics = d.suggested_topics := by
  cases sec <;> rfl

/-- Updating one section stores exactly the new value there. -/
theorem assemblyData_get_setSection_self (d : App.AssemblyData) (sec : App.Section)
    (v : Json) (now : String) : (d.setSection sec v now).get sec = some v := by
  cases sec <;> rfl

/-- Updating one section refreshes the aggregate's timestamp. -/
theorem assemblyData_setSection_timestamp (d : App.AssemblyData) (sec : App.Section)
    (v : Json) (now : String) : (d.setSection sec v now).timestamp = now := by
  cases sec <;> rfl

/-- **C7**: once the operation runs (online), every state it produces leaves
all other sections' loading flags and values (and the unused
suggested_topics field) unchanged; on failure the whole aggregate is
untouched; and the final state clears section `sec`'s loading flag
regardless of outcome, with the aggregate updated exactly at `sec` plus the
timestamp on success. -/
theorem c7_per_section_frame (st : App.UIState) (sec : App.Section) (now : String)
    (oracle : Except String Json) (hon : st.isOnline = true) :
    (∀ st' ∈ (App.handleGenerateSection st sec now oracle).1,
      (∀ t, t ≠ sec → st'.loadingSections t = st.loadingSections t) ∧
      (∀ t, t ≠ sec → st'.data.get t = st.data.get t) ∧
      st'.data.suggested_topics = st.data.suggested_topics) ∧
    (∀ e, oracle = .error e →
      ∀ st' ∈ (App.handleGenerateSection st sec now oracle).1, st'.data = st.data) ∧
    (App.handleGenerateSection st sec now oracle).1 ≠ [] ∧
    (∀ fin, (App.handleGenerateSection st sec now oracle).1.getLast? = some fin →
      fin.loadingSections sec = false ∧
      (∀ result, oracle = .ok result →
        fin.data = st.data.setSection sec result now ∧
        fin.data.get sec = some result ∧ fin.data.timestamp = now) ∧
      (∀ e, oracle = .error e → fin.data = st.data)) := by
  have hnot : ¬ st.isOnline = false := by simp [hon]
  cases oracle with
  | ok result =>
    refine ⟨?_, ?_, ?_, ?_⟩
    · intro st' hst'
      simp [App.handleGenerateSection, hnot] at hst'
      rcases hst' with rfl | rfl | rfl
      · exact ⟨fun t ht => by simp [ht], fun t ht => rfl, rfl⟩
      · exact ⟨fun t ht => by simp [ht],
          fun t ht => assemblyData_get_setSection_ne _ _ _ _ _ ht,
          assemblyData_setSection_suggested _ _ _ _⟩
      · exact ⟨fun t ht => by simp [ht],
          fun t ht => assemblyData_get_setSection_ne _ _ _ _ _ ht,
          assemblyData_setSection_suggested _ _ _ _⟩
    · intro e he
      exact absurd he (by simp)
    · simp [App.handleGenerateSection, hnot]
    · intro fin hfin
      simp [App.handleGenerateSection, hnot] at hfin
      subst hfin
      refine ⟨by simp, ?_, ?_⟩
      · intro r hr
        rcases Except.ok.inj hr with rfl
        exact ⟨rfl, assemblyData_get_setSection_self _ _ _ _,
          assemblyData_setSection_timestamp _ _ _ _⟩
      · intro e he
        exact absurd he (by simp)
  | error err =>
    refine ⟨?_, ?_, ?_, ?_⟩
    · intro st' hst'
      simp [App.handleGenerateSection, hnot] at hst'
      rcases hst' with rfl | rfl | rfl <;>
        exact ⟨fun t ht => by simp [ht], fun t ht => rfl, rfl⟩
    · intro e he st' hst'
      simp [App.handleGenerateSection, hnot] at hst'
      rcases hst' with rfl | rfl | rfl <;> rfl
    · simp [App.handleGenerateSection, hnot]
    · intro fin hfin
      simp [App.handleGenerateSection, hnot] at hfin
      subst hfin
      refine ⟨by simp, fun r hr => absurd hr (by simp), fun e he => rfl⟩

/-- Witness for C7 on a concrete online state, exercising both a success and
a failure outcome through the theorem. -/
theorem c7_per_section_frame_witness :
    ((∀ st' ∈ (App.handleGenerateSection
        ⟨⟨none, some (Json.str "old thought"), none, none, none, none, "t0"⟩,
         fun _ => false, none, "2024-05-01", true,
         ⟨"Middle", "English", "#6366f1", true⟩, "Speech", "", "Short"⟩
        App.Section.word "t1" (.ok (Json.str "new word"))).1,
      (∀ t, t ≠ App.Section.word →
        st'.loadingSections t = false) ∧
      (∀ t, t ≠ App.Section.word →
        st'.data.get t =
          (⟨none, some (Json.str "old thought"), none, none, none, none, "t0"⟩ :
            App.AssemblyData).get t) ∧
      st'.data.suggested_topics = none) ∧
    (∀ e, (Except.ok (Json.str "new word") : Except String Json) = .error e →
      ∀ st' ∈ (App.handleGenerateSection
        ⟨⟨none, some (Json.str "old thought"), none, none, none, none, "t0"⟩,
         fun _ => false, none, "2024-05-01", true,
         ⟨"Middle", "English", "#6366f1", true⟩, "Speech", "", "Short"⟩
        App.Section.word "t1" (.ok (Json.str "new word"))).1,
        st'.data = ⟨none, some (Json.str "old thought"), none, none, none, none, "t0"⟩) ∧
    (App.handleGenerateSection
        ⟨⟨none, some (Json.str "old thought"), none, none, none, none, "t0"⟩,
         fun _ => false, none, "2024-05-01", true,
         ⟨"Middle", "English", "#6366f1", true⟩, "Speech", "", "Short"⟩
        App.Section.word "t1" (.ok (Json.str "new word"))).1 ≠ [] ∧
    (∀ fin, (App.handleGenerateSection
        ⟨⟨none, some (Json.str "old thought"), none, none, none, none, "t0"⟩,
         fun _ => false, none, "2024-05-01", true,
         ⟨"Middle", "English", "#6366f1", true⟩, "Speech", "", "Short"⟩
        App.Section.word "t1" (.ok (Json.str "new word"))).1.getLast? = some fin →
      fin.loadingSections App.Section.word = false ∧
      (∀ result, (Except.ok (Json.str "new word") : Except String Json) = .ok result →
        fin.data =
          (⟨none, some (Json.str "old thought"), none, none, none, none, "t0"⟩ :
            App.AssemblyData).setSection App.Section.word result "t1" ∧
        fin.data.get App.Section.word = some result ∧ fin.data.timestamp = "t1") ∧
      (∀ e, (Except.ok (Json.str "new word") : Except String Json) = .error e →
        fin.data = ⟨none, some (Json.str "old thought"), none, none, none, none, "t0"⟩))) :=
  c7_per_section_frame _ App.Section.word "t1" (.ok (Json.str "new word")) rfl

/-- **C10**: a generateSection POST whose section value is outside the five
recognized names is not rejected with a 4xx: the provider is still invoked
once, with an empty task instruction and no output schema, and the response
is the 200/500 outcome of the provider call and parse. -/
theorem c10_unknown_section (req : Api.Req) (nonce : String) (outcome : Api.ProviderOutcome)
    (s : String) (hm : req.method = "POST") (ht : req.body.type = some "generateSection")
    (hs : req.body.sectionName = some s)
    (h1 : s ≠ "word") (h2 : s ≠ "thought") (h3 : s ≠ "news")
    (h4 : s ≠ "special_item") (h5 : s ≠ "celebration") :
    (Api.handler req nonce outcome).2 =
      [⟨"gemini-3-flash-preview",
        Api.generateSectionPrompt (Api.jsStr req.body.date) (Api.jsStr req.body.difficulty)
          (Api.jsStr req.body.language) s ""
          (Api.avoidRepetitionPrompt (req.body.options.bind Api.OptionsBag.previousContent))
          nonce,
        none⟩] ∧
    ¬(400 ≤ (Api.handler req nonce outcome).1.status ∧
      (Api.handler req nonce outcome).1.status < 500) ∧
    (∀ text j, outcome = .ok text → Json.parse (Api.orDefault text "\x7b\x7d") = .ok j →
      (Api.handler req nonce outcome).1 = ⟨200, j⟩) ∧
    (∀ text e, outcome = .ok text → Json.parse (Api.orDefault text "\x7b\x7d") = .error e →
      (Api.handler req nonce outcome).1 =
        ⟨500, Json.obj [("error", Json.str (Api.errMessage (some e)))]⟩) ∧
    (∀ m, outcome = .err m →
      (Api.handler req nonce outcome).1 =
        ⟨500, Json.obj [("error", Json.str (Api.errMessage m))]⟩) := by
  have hcfg : Api.sectionConfig (some s) req.body.options = (none, "") := by
    simp [Api.sectionConfig, h1, h2, h3, h4, h5]
  cases outcome with
  | ok text =>
    refine ⟨?_, ?_, fun t j heq hp => ?_, fun t e heq hp => ?_, fun m hm' => ?_⟩
    · rcases hp : Json.parse (Api.orDefault text "\x7b\x7d") with e | j <;>
        simp [Api.handler, Api.jsStr, hm, ht, hs, hcfg, hp]
    · rcases hp : Json.parse (Api.orDefault text "\x7b\x7d") with e | j <;>
        simp [Api.handler, Api.jsStr, hm, ht, hs, hcfg, hp]
    · rcases Api.ProviderOutcome.ok.inj heq with rfl
      simp [Api.handler, Api.jsStr, hm, ht, hs, hcfg, hp]
    · rcases Api.ProviderOutcome.ok.inj heq with rfl
      simp [Api.handler, Api.jsStr, hm, ht, hs, hcfg, hp]
    · exact absurd hm' (by simp)
  | err m =>
    refine ⟨?_, ?_, fun t j heq hp => absurd heq (by simp),
      fun t e heq hp => absurd heq (by simp), fun m' hm' => ?_⟩
    · simp [Api.handler, Api.jsStr, hm, ht, hs, hcfg]
    · simp [Api.handler, Api.jsStr, hm, ht, hs, hcfg]
    · rcases Api.ProviderOutcome.err.inj hm' with rfl
      simp [Api.handler, Api.jsStr, hm, ht, hs, hcfg]

/-- Witness for C10 at the concrete unrecognized section "banana". -/
theorem c10_unknown_section_witness :
    (Api.handler ⟨"POST", ⟨some "generateSection", some "banana", some "2024-05-01",
        some "Middle", some "English", none⟩⟩ "r" (.ok none)).2 =
      [⟨"gemini-3-flash-preview",
        Api.generateSectionPrompt "2024-05-01" "Middle" "English" "banana" ""
          (Api.avoidRepetitionPrompt none) "r",
        none⟩] ∧
    ¬(400 ≤ (Api.handler ⟨"POST", ⟨some "generateSection", some "banana", some "2024-05-01",
        some "Middle", some "English", none⟩⟩ "r" (.ok none)).1.status ∧
      (Api.handler ⟨"POST", ⟨some "generateSection", some "banana", some "2024-05-01",
        some "Middle", some "English", none⟩⟩ "r" (.ok none)).1.status < 500) :=
  ⟨(c10_unknown_section _ "r" (.ok none) "banana" rfl rfl rfl
      (by decide) (by decide) (by decide) (by decide) (by decide)).1,
   (c10_unknown_section _ "r" (.ok none) "banana" rfl rfl rfl
      (by decide) (by decide) (by decide) (by decide) (by decide)).2.1⟩

/-- **C1** fails as stated: the CRITICAL LANGUAGE RULE — the instruction that
ALL output be rendered in Devanagari when the primary language is Hindi — is
embedded in the prompt unconditionally, so this concrete English-language
request still produces a prompt containing that instruction (including the
words "in Hindi script (Devanagari)"). -/
theorem c1_english_rule_counterexample :
    ∃ call, (Api.handler
        ⟨"POST", ⟨some "generateSection", some "word", some "2024-05-01",
          some "Middle", some "English", none⟩⟩ "abc123" (.ok none)).2 = [call] ∧
      Api.criticalLanguageRule.data <:+: call.prompt.data ∧
      ("in Hindi script (Devanagari)").data <:+: call.prompt.data :=
  ⟨_, handler_generateSection_calls _ "abc123" (.ok none) rfl rfl,
   criticalRule_infix_prompt _ _ _ _ _ _ _,
   List.IsInfix.trans (by decide) (criticalRule_infix_prompt _ _ _ _ _ _ _)⟩

/-- **C1** (amended): for every section and for both languages alike, the
constructed generateSection prompt embeds the conditional CRITICAL LANGUAGE
RULE (instructing Devanagari rendering of all output, word and meaning
included, whenever the primary language is Hindi); the request's language
reaches the model through the prompt's `Primary Language: {language}` line,
not through presence or absence of that instruction. -/
theorem c1_language_rule_always_embedded (req : Api.Req) (nonce : String)
    (outcome : Api.ProviderOutcome) (hm : req.method = "POST")
    (ht : req.body.type = some "generateSection") :
    ∃ call, (Api.handler req nonce outcome).2 = [call] ∧
      Api.criticalLanguageRule.data <:+: call.prompt.data ∧
      ("Primary Language: " ++ Api.jsStr req.body.language).data <:+: call.prompt.data :=
  ⟨_, handler_generateSection_calls req nonce outcome hm ht,
   criticalRule_infix_prompt _ _ _ _ _ _ _,
   primaryLanguage_infix_prompt _ _ _ _ _ _ _⟩

/-- Witness for C1 (amended) on a concrete Hindi request. -/
theorem c1_language_rule_always_embedded_witness :
    Api.criticalLanguageRule.data <:+:
      ((Api.handler ⟨"POST", ⟨some "generateSection", some "thought", some "2024-05-01",
          some "Middle", some "Hindi", none⟩⟩ "zz9" (.ok none)).2.headD
        ⟨"", "", none⟩).prompt.data ∧
    ("Primary Language: " ++ "Hindi").data <:+:
      ((Api.handler ⟨"POST", ⟨some "generateSection", some "thought", some "2024-05-01",
          some "Middle", some "Hindi", none⟩⟩ "zz9" (.ok none)).2.headD
        ⟨"", "", none⟩).prompt.data := by
  obtain ⟨call, hcalls, h1, h2⟩ :=
    c1_language_rule_always_embedded
      ⟨"POST", ⟨some "generateSection", some "thought", some "2024-05-01",
        some "Middle", some "Hindi", none⟩⟩ "zz9" (.ok none) rfl rfl
  rw [hcalls]
  exact ⟨h1, h2⟩

/-- **C6**: a generateSection request whose `options.previousContent` is
supplied and truthy produces a prompt containing the repetition-guard clause
with the exact JSON serialization of that previous content; when it is
absent — or supplied but falsy (null, false, 0, empty string), which the
source's truthiness conditional treats the same way — the prompt contains no
repetition-guard clause (no occurrence of the guard marker at all, as long
as none of the interpolated request values smuggles the marker text in). -/
theorem c6_repetition_guard (req : Api.Req) (nonce : String)
    (outcome : Api.ProviderOutcome) (hm : req.method = "POST")
    (ht : req.body.type = some "generateSection") :
    ∃ call, (Api.handler req nonce outcome).2 = [call] ∧
      (∀ p, req.body.options.bind Api.OptionsBag.previousContent = some p →
        jsTruthy p = true →
        ("CRITICAL REPETITION GUARD").data <:+: call.prompt.data ∧
        (Json.stringify p).data <:+: call.prompt.data) ∧
      ((req.body.options.bind Api.OptionsBag.previousContent = none ∨
        (∃ p, req.body.options.bind Api.OptionsBag.previousContent = some p ∧
          jsTruthy p = false)) →
        ¬ ("CRITICAL REPETITION GUARD").data <:+: (Api.jsStr req.body.date).data →
        ¬ ("CRITICAL REPETITION GUARD").data <:+: (Api.jsStr req.body.difficulty).data →
        ¬ ("CRITICAL REPETITION GUARD").data <:+: (Api.jsStr req.body.language).data →
        ¬ ("CRITICAL REPETITION GUARD").data <:+: (Api.jsStr req.body.sectionName).data →
        ¬ ("CRITICAL REPETITION GUARD").data <:+:
            ((Api.sectionConfig req.body.sectionName req.body.options).2).data →
        ¬ ("CRITICAL REPETITION GUARD").data <:+: nonce.data →
        ¬ ("CRITICAL REPETITION GUARD").data <:+: call.prompt.data) := by
  refine ⟨_, handler_generateSection_calls req nonce outcome hm ht, ?_, ?_⟩
  · intro p hp htr
    rw [hp]
    exact ⟨guardMarker_infix_prompt _ _ _ _ _ _ p htr,
      stringify_infix_prompt _ _ _ _ _ _ p htr⟩
  · intro hfalsy hd hf hl hs2 hsp hn
    rcases hfalsy with hnone | ⟨p, hp, hfa⟩
    · rw [hnone]
      have hg : Api.avoidRepetitionPrompt none = "" := rfl
      rw [hg]
      exact guardMarker_not_infix_prompt _ _ _ _ _ _ hd hf hl hs2 hsp hn
    · rw [hp, avoidRepetitionPrompt_falsy p hfa]
      exact guardMarker_not_infix_prompt _ _ _ _ _ _ hd hf hl hs2 hsp hn

/-- Witness for C6: with truthy previous content its serialization occurs in
the concrete prompt; with it absent, or supplied as the falsy null, the guard
marker does not occur at all. -/
theorem c6_repetition_guard_witness :
    ((Json.stringify (Json.obj [("word", Json.str "apple")])).data <:+:
      ((Api.handler ⟨"POST", ⟨some "generateSection", some "word", some "2024-05-01",
          some "Middle", some "English",
          some ⟨none, none, none, some (Json.obj [("word", Json.str "apple")])⟩⟩⟩
        "rr" (.ok none)).2.headD ⟨"", "", none⟩).prompt.data) ∧
    ¬ ("CRITICAL REPETITION GUARD").data <:+:
      ((Api.handler ⟨"POST", ⟨some "generateSection", some "word", some "2024-05-01",
          some "Middle", some "English", none⟩⟩
        "rr" (.ok none)).2.headD ⟨"", "", none⟩).prompt.data ∧
    ¬ ("CRITICAL REPETITION GUARD").data <:+:
      ((Api.handler ⟨"POST", ⟨some "generateSection", some "word", some "2024-05-01",
          some "Middle", some "English",
          some ⟨none, none, none, some Json.null⟩⟩⟩
        "rr" (.ok none)).2.headD ⟨"", "", none⟩).prompt.data := by
  refine ⟨?_, ?_, ?_⟩
  · obtain ⟨call, hcalls, hpos, hneg⟩ :=
      c6_repetition_guard
        ⟨"POST", ⟨some "generateSection", some "word", some "2024-05-01",
          some "Middle", some "English",
          some ⟨none, none, none, some (Json.obj [("word", Json.str "apple")])⟩⟩⟩
        "rr" (.ok none) rfl rfl
    rw [hcalls]
    exact (hpos _ rfl rfl).2
  · obtain ⟨call, hcalls, hpos, hneg⟩ :=
      c6_repetition_guard
        ⟨"POST", ⟨some "generateSection", some "word", some "2024-05-01",
          some "Middle", some "English", none⟩⟩
        "rr" (.ok none) rfl rfl
    rw [hcalls]
    exact hneg (Or.inl rfl) (by decide) (by decide) (by decide) (by decide) (by decide)
      (by decide)
  · obtain ⟨call, hcalls, hpos, hneg⟩ :=
      c6_repetition_guard
        ⟨"POST", ⟨some "generateSection", some "word", some "2024-05-01",
          some "Middle", some "English",
          some ⟨none, none, none, some Json.null⟩⟩⟩
        "rr" (.ok none) rfl rfl
    rw [hcalls]
    exact hneg (Or.inr ⟨Json.null, rfl, rfl⟩) (by decide) (by decide) (by decide)
      (by decide) (by decide) (by decide)

end SmartAssembly
